import Mathlib

/-!
# auto-gke-go: the provisioning workflow of `main.go`

A shallow embedding of `main.go`.

* Go strings are Lean strings; `fmt.Sprintf` / `pulumi.Sprintf` are embedded by
  `sprintf`, which covers the `%s` verb (the only verb the program's format strings
  use) together with Go's diagnostics for missing and surplus operands.
* A `pulumi.Output` is embedded by the value it resolves to, so `pulumi.Sprintf`
  and `fmt.Sprintf` coincide.
* The SDK constructors (`container.GetEngineVersions`, `container.NewCluster`,
  `providers.NewProvider`, `corev1.NewNamespace`, `appsv1.NewDeployment`,
  `corev1.NewService`) are not part of the program.  They are parameters of the
  embedding, collected in `Cloud`; each answers with a Go pair `(pointer, error)`
  that is either `(&value, nil)` or `(nil, err)`.
* The program's functions thread a `Context`, which stands for `*pulumi.Context`
  and also carries what the run can be observed to do: the SDK calls issued, each
  with the error it answered, the invocations of `generateKubeconfig`, the text
  written by `fmt.Printf` and the values exported.
* Dereferencing a nil pointer ends the run with `Outcome.panic`.
-/

namespace AutoGke

/-! ## Formatting -/

/-- Text that `fmt.Sprintf` appends for operands no verb consumed:
`string=a, string=b` inside `%!(EXTRA ...)`. -/
def extraOperands : List (List Char) → List Char
  | [] => []
  | [a] => "string=".data ++ a
  | a :: rest => "string=".data ++ a ++ ", ".data ++ extraOperands rest

/-- The output of `fmt.Sprintf` on a format whose only verbs are `%s` (and the
escape `%%`), applied to string operands.  A `%s` without operand prints
`%!s(MISSING)`, operands left over at the end print `%!(EXTRA ...)`. -/
def formatChars : List Char → List (List Char) → List Char
  | [], [] => []
  | [], a :: args => "%!(EXTRA ".data ++ extraOperands (a :: args) ++ [')']
  | '%' :: 's' :: rest, a :: args => a ++ formatChars rest args
  | '%' :: 's' :: rest, [] => "%!s(MISSING)".data ++ formatChars rest []
  | '%' :: '%' :: rest, args => '%' :: formatChars rest args
  | c :: rest, args => c :: formatChars rest args

/-- Embedding of `fmt.Sprintf(format, args...)` and of `pulumi.Sprintf` on resolved
outputs. -/
def sprintf (format : String) (args : List String) : String :=
  String.mk (formatChars format.data (args.map String.data))

/-! ## The kubeconfig document -/

/-- The raw string literal of `generateKubeconfig` (main.go, lines 108-131). -/
def kubeconfigTemplate : String :=
  "apiVersion: v1\n" ++
  "clusters:\n" ++
  "- cluster:\n" ++
  "    certificate-authority-data: %s\n" ++
  "    server: https://%s\n" ++
  "  name: %s\n" ++
  "contexts:\n" ++
  "- context:\n" ++
  "    cluster: %s\n" ++
  "    user: %s\n" ++
  "  name: %s\n" ++
  "current-context: %s\n" ++
  "kind: Config\n" ++
  "preferences: \x7b\x7d\n" ++
  "users:\n" ++
  "- name: %s\n" ++
  "  user:\n" ++
  "    auth-provider:\n" ++
  "      config:\n" ++
  "        cmd-args: config config-helper --format=json\n" ++
  "        cmd-path: gcloud\n" ++
  "        expiry-key: \x27\x7b.credential.token_expiry\x7d\x27\n" ++
  "        token-key: \x27\x7b.credential.access_token\x7d\x27\n" ++
  "      name: gcp"

/-- The operands `generateKubeconfig` passes to the template: the CA certificate,
the endpoint, and six times `context`. -/
def kubeconfigOperands (clusterEndpoint clusterName clusterCaCertificate : String) :
    List String :=
  let context := sprintf "demo_%s" [clusterName]
  [clusterCaCertificate, clusterEndpoint, context, context, context, context, context, context]

/-- Embedding of `generateKubeconfig` (main.go, lines 101-134).  The third argument
is `clusterMasterAuth.ClusterCaCertificate().Elem()`. -/
def generateKubeconfig (clusterEndpoint clusterName clusterCaCertificate : String) : String :=
  sprintf kubeconfigTemplate
    (kubeconfigOperands clusterEndpoint clusterName clusterCaCertificate)

/-! ### Reading a document line by line -/

/-- Split a text at its line breaks. -/
def splitLines : List Char → List (List Char)
  | [] => [[]]
  | c :: rest =>
    if c = '\n' then [] :: splitLines rest
    else
      match splitLines rest with
      | [] => [[c]]
      | l :: ls => (c :: l) :: ls

/-- The lines of a document. -/
def documentLines (doc : String) : List String :=
  (splitLines doc.data).map String.mk

/-- Number of operands the verbs of a format consume. -/
def verbCount : List Char → Nat
  | [] => 0
  | '%' :: 's' :: rest => verbCount rest + 1
  | '%' :: '%' :: rest => verbCount rest
  | _ :: rest => verbCount rest

/-- Format the lines of a template one at a time, each with the operands its own
verbs consume, in order. -/
def renderLines : List (List Char) → List (List Char) → List (List Char)
  | [], _ => []
  | line :: rest, args =>
    formatChars line (args.take (verbCount line)) ::
      renderLines rest (args.drop (verbCount line))

/-- The lines of the kubeconfig template, each formatted with its own operands. -/
def kubeconfigLines (clusterEndpoint clusterName clusterCaCertificate : String) :
    List (List Char) :=
  renderLines (splitLines kubeconfigTemplate.data)
    ((kubeconfigOperands clusterEndpoint clusterName clusterCaCertificate).map String.data)

/-- Whether a line opens an item of a sequence (`- `). -/
def opensItem (line : List Char) : Bool :=
  line.take 2 == ['-', ' ']

/-! ## The SDK handles and requests -/

/-- A non-nil Go `error`. -/
structure GoError where
  message : String
deriving DecidableEq, Repr

/-- The answer of an SDK constructor, a Go pair `(pointer, error)`:
`success v` is `(&v, nil)` and `failure e` is `(nil, e)`. -/
inductive SdkResult (α : Type) where
  | success (value : α)
  | failure (err : GoError)
deriving DecidableEq, Repr

/-- First component of the Go pair: `none` is the nil pointer. -/
def SdkResult.pointer {α : Type} : SdkResult α → Option α
  | SdkResult.success v => some v
  | SdkResult.failure _ => none

/-- Second component of the Go pair: `none` is the nil error. -/
def SdkResult.err {α : Type} : SdkResult α → Option GoError
  | SdkResult.success _ => none
  | SdkResult.failure e => some e

/-- How a function of the program ends: it returns a value, or the run panics. -/
inductive Outcome (α : Type) where
  | ret (value : α)
  | panic
deriving DecidableEq, Repr

/-- A `pulumi.StringMap`, as the list of its key/value pairs. -/
abbrev StringMap := List (String × String)

/-- Go type `container.GetEngineVersionsResult`, the field the program reads. -/
structure GetEngineVersionsResult where
  latestMasterVersion : String
deriving DecidableEq, Repr

/-- Go type `container.ClusterNodeConfigArgs`, the fields the program sets. -/
structure ClusterNodeConfigArgs where
  machineType : String
  oauthScopes : List String
deriving DecidableEq, Repr

/-- Go type `container.ClusterArgs`, the fields the program sets. -/
structure ClusterArgs where
  initialNodeCount : Int
  minMasterVersion : String
  nodeVersion : String
  nodeConfig : ClusterNodeConfigArgs
deriving DecidableEq, Repr

/-- Go type `container.ClusterMasterAuth`, resolved; the certificate is
`ClusterCaCertificate().Elem()`. -/
structure ClusterMasterAuth where
  clusterCaCertificate : String
deriving DecidableEq, Repr

/-- Go type `container.Cluster`, the output attributes the program reads, resolved. -/
structure Cluster where
  endpoint : String
  name : String
  masterAuth : ClusterMasterAuth
deriving DecidableEq, Repr

/-- Go type `providers.ProviderArgs`, the field the program sets. -/
structure ProviderArgs where
  kubeconfig : String
deriving DecidableEq, Repr

/-- Go type `providers.Provider`, an opaque handle. -/
structure Provider where
  urn : String
deriving DecidableEq, Repr

/-- Go type `metav1.ObjectMetaArgs`, the fields the program sets; `none` is a field left
unset.  `namespaceName` is the field `Namespace`. -/
structure ObjectMetaArgs where
  name : Option String
  namespaceName : Option String
  labels : Option StringMap
deriving DecidableEq, Repr

/-- Go type `corev1.NamespaceArgs`. -/
structure NamespaceArgs where
  metadata : ObjectMetaArgs
deriving DecidableEq, Repr

/-- Go type `corev1.Namespace`: `metadataName` is `Metadata.Elem().Name()`, resolved. -/
structure Namespace where
  metadataName : String
deriving DecidableEq, Repr

/-- Go type `metav1.LabelSelectorArgs`. -/
structure LabelSelectorArgs where
  matchLabels : StringMap
deriving DecidableEq, Repr

/-- Go type `corev1.ContainerArgs`. -/
structure ContainerArgs where
  name : String
  image : String
deriving DecidableEq, Repr

/-- Go type `corev1.PodSpecArgs`. -/
structure PodSpecArgs where
  containers : List ContainerArgs
deriving DecidableEq, Repr

/-- Go type `corev1.PodTemplateSpecArgs`. -/
structure PodTemplateSpecArgs where
  metadata : ObjectMetaArgs
  spec : PodSpecArgs
deriving DecidableEq, Repr

/-- Go type `appsv1.DeploymentSpecArgs`. -/
structure DeploymentSpecArgs where
  selector : LabelSelectorArgs
  replicas : Int
  template : PodTemplateSpecArgs
deriving DecidableEq, Repr

/-- Go type `appsv1.DeploymentArgs`. -/
structure DeploymentArgs where
  metadata : ObjectMetaArgs
  spec : DeploymentSpecArgs
deriving DecidableEq, Repr

/-- Go type `appsv1.Deployment`: `urn` is the text `%s` prints for its `URN`. -/
structure Deployment where
  urn : String
deriving DecidableEq, Repr

/-- Go type `corev1.ServicePortArgs`. -/
structure ServicePortArgs where
  port : Int
  targetPort : Int
deriving DecidableEq, Repr

/-- Go type `corev1.ServiceSpecArgs`; `type` is the field `Type`. -/
structure ServiceSpecArgs where
  ports : List ServicePortArgs
  selector : StringMap
  type : String
deriving DecidableEq, Repr

/-- Go type `corev1.ServiceArgs`. -/
structure ServiceArgs where
  metadata : ObjectMetaArgs
  spec : ServiceSpecArgs
deriving DecidableEq, Repr

/-- Go type `corev1.Service`: `urn` is the text `%s` prints for its `URN`. -/
structure Service where
  urn : String
deriving DecidableEq, Repr

/-- A call into the SDK, with the resource name, the request and the resource
options (`pulumi.DependsOn`, `pulumi.Provider`) it is issued with. -/
inductive Call where
  | getEngineVersions
  | newCluster (name : String) (args : ClusterArgs)
  | newProvider (name : String) (args : ProviderArgs) (dependsOn : List Cluster)
  | newNamespace (name : String) (args : NamespaceArgs) (provider : Option Provider)
  | newDeployment (name : String) (args : DeploymentArgs) (provider : Option Provider)
  | newService (name : String) (args : ServiceArgs) (provider : Option Provider)
deriving DecidableEq, Repr

/-- The kind of a call, which names the step of the workflow that issues it. -/
inductive CallKind where
  | versionQuery
  | clusterCreate
  | providerCreate
  | namespaceCreate
  | deploymentCreate
  | serviceCreate
deriving DecidableEq, Repr

/-- The kind of a call. -/
def Call.kind : Call → CallKind
  | Call.getEngineVersions => CallKind.versionQuery
  | Call.newCluster _ _ => CallKind.clusterCreate
  | Call.newProvider _ _ _ => CallKind.providerCreate
  | Call.newNamespace _ _ _ => CallKind.namespaceCreate
  | Call.newDeployment _ _ _ => CallKind.deploymentCreate
  | Call.newService _ _ _ => CallKind.serviceCreate

/-- The steps of the workflow, in the order of `main`. -/
def workflowSteps : List CallKind :=
  [ CallKind.versionQuery, CallKind.clusterCreate, CallKind.providerCreate,
    CallKind.namespaceCreate, CallKind.deploymentCreate, CallKind.serviceCreate ]

/-- The SDK and the cloud behind it: the answer to each call. -/
structure Cloud where
  getEngineVersions : SdkResult GetEngineVersionsResult
  newCluster : String → ClusterArgs → SdkResult Cluster
  newProvider : String → ProviderArgs → List Cluster → SdkResult Provider
  newNamespace : String → NamespaceArgs → Option Provider → SdkResult Namespace
  newDeployment : String → DeploymentArgs → Option Provider → SdkResult Deployment
  newService : String → ServiceArgs → Option Provider → SdkResult Service

/-- The `*pulumi.Context` of a run together with what the run has done so far. -/
structure Context where
  cloud : Cloud
  calls : List (Call × Option GoError)
  synthesized : List (String × String × String)
  stdout : String
  exports : List (String × String)

/-- The context a run starts from. -/
def Context.start (cloud : Cloud) : Context :=
  { cloud := cloud, calls := [], synthesized := [], stdout := "", exports := [] }

/-- Note an SDK call and the error it answered (`none` is `nil`). -/
def Context.call (ctx : Context) (c : Call) (err : Option GoError) : Context :=
  { ctx with calls := ctx.calls ++ [(c, err)] }

/-- Note an invocation of `generateKubeconfig` with its three arguments. -/
def Context.synthesize (ctx : Context) (endpoint name caCert : String) : Context :=
  { ctx with synthesized := ctx.synthesized ++ [(endpoint, name, caCert)] }

/-- Embedding of `fmt.Printf(format, arg)`. -/
def Context.printf (ctx : Context) (format : String) (args : List String) : Context :=
  { ctx with stdout := ctx.stdout ++ sprintf format args }

/-- Embedding of `ctx.Export(name, value)`. -/
def Context.exportValue (ctx : Context) (name value : String) : Context :=
  { ctx with exports := ctx.exports ++ [(name, value)] }

/-! ## The program -/

/-- Embedding of `findLatestGKEversion` (main.go, lines 69-79).  The field
`LatestMasterVersion` is read through the pointer before the error is looked at. -/
def findLatestGKEversion (ctx : Context) : Context × Outcome (String × Option GoError) :=
  let engineVersions := ctx.cloud.getEngineVersions.pointer
  let err := ctx.cloud.getEngineVersions.err
  let ctx := ctx.call Call.getEngineVersions err
  match engineVersions with
  | none => (ctx, Outcome.panic)
  | some result => (ctx, Outcome.ret (result.latestMasterVersion, err))

/-- The request `createCluster` builds (main.go, lines 85-97). -/
def clusterArgs (v : String) : ClusterArgs :=
  { initialNodeCount := 2
    minMasterVersion := v
    nodeVersion := v
    nodeConfig :=
      { machineType := "n1-standard-1"
        oauthScopes :=
          [ "https://www.googleapis.com/auth/compute",
            "https://www.googleapis.com/auth/devstorage.read_only",
            "https://www.googleapis.com/auth/logging.write",
            "https://www.googleapis.com/auth/monitoring" ] } }

/-- Embedding of `createCluster` (main.go, lines 82-98).  The parameter `name` is
not used: the resource is named by the literal `"demo-cluster"`. -/
def createCluster (ctx : Context) (_name : String) (v : String) :
    Context × (Option Cluster × Option GoError) :=
  let answer := ctx.cloud.newCluster "demo-cluster" (clusterArgs v)
  (ctx.call (Call.newCluster "demo-cluster" (clusterArgs v)) answer.err,
    (answer.pointer, answer.err))

/-- The request `createProvider` builds (main.go, lines 141-147). -/
def providerArgs (cluster : Cluster) : ProviderArgs :=
  { kubeconfig :=
      generateKubeconfig cluster.endpoint cluster.name cluster.masterAuth.clusterCaCertificate }

/-- Embedding of `createProvider` (main.go, lines 137-150). -/
def createProvider (ctx : Context) (cluster : Option Cluster) :
    Context × Outcome (Option Provider × Option GoError) :=
  match cluster with
  | none => (ctx, Outcome.panic)
  | some c =>
    let ctx := ctx.synthesize c.endpoint c.name c.masterAuth.clusterCaCertificate
    let answer := ctx.cloud.newProvider "demo-provider" (providerArgs c) [c]
    (ctx.call (Call.newProvider "demo-provider" (providerArgs c) [c]) answer.err,
      Outcome.ret (answer.pointer, answer.err))

/-- The request `createNamespace` builds (main.go, lines 157-161). -/
def namespaceArgs : NamespaceArgs :=
  { metadata := { name := some "demo-ns", namespaceName := none, labels := none } }

/-- Embedding of `createNamespace` (main.go, lines 153-163). -/
def createNamespace (ctx : Context) (provider : Option Provider) :
    Context × (Option Namespace × Option GoError) :=
  let answer := ctx.cloud.newNamespace "app-ns" namespaceArgs provider
  (ctx.call (Call.newNamespace "app-ns" namespaceArgs provider) answer.err,
    (answer.pointer, answer.err))

/-- The request `createDeploy` builds (main.go, lines 176-198). -/
def deploymentArgs (name : String) (n : Namespace) (l : StringMap) : DeploymentArgs :=
  { metadata := { name := none, namespaceName := some n.metadataName, labels := none }
    spec :=
      { selector := { matchLabels := l }
        replicas := 3
        template :=
          { metadata := { name := none, namespaceName := none, labels := some l }
            spec := { containers := [{ name := name, image := "ronaldcrb/node-pickard" }] } } } }

/-- Embedding of `createDeploy` (main.go, lines 165-199). -/
def createDeploy (ctx : Context) (name : String) (p : Option Provider) (n : Option Namespace)
    (l : StringMap) : Context × Outcome (Option Deployment × Option GoError) :=
  match n with
  | none => (ctx, Outcome.panic)
  | some ns =>
    let answer := ctx.cloud.newDeployment name (deploymentArgs name ns l) p
    (ctx.call (Call.newDeployment name (deploymentArgs name ns l) p) answer.err,
      Outcome.ret (answer.pointer, answer.err))

/-- The request `createService` builds (main.go, lines 211-226). -/
def serviceArgs (n : Namespace) (l : StringMap) : ServiceArgs :=
  { metadata := { name := none, namespaceName := some n.metadataName, labels := some l }
    spec :=
      { ports := [{ port := 80, targetPort := 3000 }]
        selector := l
        type := "LoadBalancer" } }

/-- Embedding of `createService` (main.go, lines 201-227). -/
def createService (ctx : Context) (name : String) (p : Option Provider) (n : Option Namespace)
    (l : StringMap) : Context × Outcome (Option Service × Option GoError) :=
  match n with
  | none => (ctx, Outcome.panic)
  | some ns =>
    let answer := ctx.cloud.newService name (serviceArgs ns l) p
    (ctx.call (Call.newService name (serviceArgs ns l) p) answer.err,
      Outcome.ret (answer.pointer, answer.err))

/-- The label map `appLabels` of `main` (main.go, lines 19-21). -/
def appLabels : StringMap := [("app", "pickard-app")]

/-- The last part of the function `main` hands to `pulumi.Run` (main.go,
lines 53-64): the two `fmt.Printf` calls, the export and `return nil`. -/
def report (ctx : Context) (cluster : Option Cluster) (deploy : Option Deployment)
    (service : Option Service) : Context × Outcome (Option GoError) :=
  match deploy with
  | none => (ctx, Outcome.panic)
  | some d =>
    let ctx := ctx.printf "deployment URN => %s" [d.urn]
    match service with
    | none => (ctx, Outcome.panic)
    | some s =>
      let ctx := ctx.printf "service URN => %s" [s.urn]
      match cluster with
      | none => (ctx, Outcome.panic)
      | some c =>
        let ctx := ctx.synthesize c.endpoint c.name c.masterAuth.clusterCaCertificate
        let ctx := ctx.exportValue "kubeconfig"
          (generateKubeconfig c.endpoint c.name c.masterAuth.clusterCaCertificate)
        (ctx, Outcome.ret none)

/-- Embedding of the function `main` hands to `pulumi.Run` (main.go, lines 15-65):
the workflow.  Its value is the error it returns (`none` is `nil`). -/
def main (ctx : Context) : Context × Outcome (Option GoError) :=
  let clusterName := "demo-cluster"
  match findLatestGKEversion ctx with
  | (ctx, Outcome.panic) => (ctx, Outcome.panic)
  | (ctx, Outcome.ret (_, some err)) => (ctx, Outcome.ret (some err))
  | (ctx, Outcome.ret (version, none)) =>
  match createCluster ctx clusterName version with
  | (ctx, (_, some err)) => (ctx, Outcome.ret (some err))
  | (ctx, (cluster, none)) =>
  match createProvider ctx cluster with
  | (ctx, Outcome.panic) => (ctx, Outcome.panic)
  | (ctx, Outcome.ret (_, some err)) => (ctx, Outcome.ret (some err))
  | (ctx, Outcome.ret (provider, none)) =>
  match createNamespace ctx provider with
  | (ctx, (_, some err)) => (ctx, Outcome.ret (some err))
  | (ctx, (namespace_, none)) =>
  match createDeploy ctx "pickard-demo" provider namespace_ appLabels with
  | (ctx, Outcome.panic) => (ctx, Outcome.panic)
  | (ctx, Outcome.ret (_, some err)) => (ctx, Outcome.ret (some err))
  | (ctx, Outcome.ret (deploy, none)) =>
  match createService ctx "pickard-service" provider namespace_ appLabels with
  | (ctx, Outcome.panic) => (ctx, Outcome.panic)
  | (ctx, Outcome.ret (_, some err)) => (ctx, Outcome.ret (some err))
  | (ctx, Outcome.ret (service, none)) => report ctx cluster deploy service

/-- The run of the workflow against a cloud, from a fresh context. -/
def run (cloud : Cloud) : Context × Outcome (Option GoError) :=
  main (Context.start cloud)

/-! ## Clouds used as concrete inputs -/

/-- The cluster of the end-to-end example. -/
def demoCluster : Cluster :=
  { endpoint := "34.1.2.3"
    name := "demo-cluster"
    masterAuth := { clusterCaCertificate := "QkFTRTY0Q0VSVA==" } }

/-- A cloud in which every call succeeds. -/
def demoCloud : Cloud :=
  { getEngineVersions := SdkResult.success { latestMasterVersion := "1.14.10-gke.27" }
    newCluster := fun _ _ => SdkResult.success demoCluster
    newProvider := fun _ _ _ => SdkResult.success { urn := "urn:provider" }
    newNamespace := fun _ _ _ => SdkResult.success { metadataName := "demo-ns" }
    newDeployment := fun _ _ _ => SdkResult.success { urn := "urn:deploy" }
    newService := fun _ _ _ => SdkResult.success { urn := "urn:service" } }

/-- A cloud whose catalog answers the empty version string. -/
def blankVersionCloud : Cloud :=
  { demoCloud with getEngineVersions := SdkResult.success { latestMasterVersion := "" } }

/-- A cloud whose version catalog cannot be queried. -/
def catalogDownCloud : Cloud :=
  { demoCloud with getEngineVersions := SdkResult.failure { message := "catalog unreachable" } }

/-- A cloud that rejects the cluster. -/
def clusterDownCloud : Cloud :=
  { demoCloud with newCluster := fun _ _ => SdkResult.failure { message := "quota exceeded" } }

/-- A cloud that rejects the provider. -/
def providerDownCloud : Cloud :=
  { demoCloud with newProvider := fun _ _ _ => SdkResult.failure { message := "bad kubeconfig" } }

/-- A cloud that rejects the namespace. -/
def namespaceDownCloud : Cloud :=
  { demoCloud with newNamespace := fun _ _ _ => SdkResult.failure { message := "forbidden" } }

/-- A cloud that rejects the deployment. -/
def deploymentDownCloud : Cloud :=
  { demoCloud with newDeployment := fun _ _ _ => SdkResult.failure { message := "invalid spec" } }

/-- A cloud that rejects the service. -/
def serviceDownCloud : Cloud :=
  { demoCloud with newService := fun _ _ _ => SdkResult.failure { message := "no address" } }

/-! ## Formatting: lemmas -/

/-- The value of `context` in `generateKubeconfig`. -/
theorem sprintf_context (n : String) : sprintf "demo_%s" [n] = "demo_" ++ n := by
  have h : sprintf "demo_%s" [n] = String.mk ("demo_".data ++ (n.data ++ [])) := rfl
  rw [h]
  apply String.ext
  simp only [String.data_append, List.append_nil]

/-- The first message of `main`. -/
theorem sprintf_deployment (d : String) :
    sprintf "deployment URN => %s" [d] = "deployment URN => " ++ d := by
  have h : sprintf "deployment URN => %s" [d] =
      String.mk ("deployment URN => ".data ++ (d.data ++ [])) := rfl
  rw [h]
  apply String.ext
  simp only [String.data_append, List.append_nil]

/-- The second message of `main`. -/
theorem sprintf_service (s : String) :
    sprintf "service URN => %s" [s] = "service URN => " ++ s := by
  have h : sprintf "service URN => %s" [s] =
      String.mk ("service URN => ".data ++ (s.data ++ [])) := rfl
  rw [h]
  apply String.ext
  simp only [String.data_append, List.append_nil]

/-! ## The kubeconfig document: lemmas -/

set_option maxRecDepth 100000 in
/-- The document of `generateKubeconfig`, as the formatter produces it. -/
theorem generateKubeconfig_raw (e n c : String) :
    generateKubeconfig e n c = String.mk (
      "apiVersion: v1\nclusters:\n- cluster:\n    certificate-authority-data: ".data ++ (c.data ++ (
      "\n    server: https://".data ++ (e.data ++ (
      "\n  name: ".data ++ ((sprintf "demo_%s" [n]).data ++ (
      "\ncontexts:\n- context:\n    cluster: ".data ++ ((sprintf "demo_%s" [n]).data ++ (
      "\n    user: ".data ++ ((sprintf "demo_%s" [n]).data ++ (
      "\n  name: ".data ++ ((sprintf "demo_%s" [n]).data ++ (
      "\ncurrent-context: ".data ++ ((sprintf "demo_%s" [n]).data ++ (
      "\nkind: Config\npreferences: \x7b\x7d\nusers:\n- name: ".data ++
        ((sprintf "demo_%s" [n]).data ++ (
      "\n  user:\n    auth-provider:\n      config:\n        cmd-args: config config-helper --format=json\n        cmd-path: gcloud\n        expiry-key: \x27\x7b.credential.token_expiry\x7d\x27\n        token-key: \x27\x7b.credential.access_token\x7d\x27\n      name: gcp".data))))))))))))))))) :=
  rfl

set_option maxRecDepth 100000 in
/-- The document of `generateKubeconfig`, written out line by line. -/
theorem generateKubeconfig_eq (e n c : String) :
    generateKubeconfig e n c =
      "apiVersion: v1\n" ++
      "clusters:\n" ++
      "- cluster:\n" ++
      "    certificate-authority-data: " ++ c ++ "\n" ++
      "    server: https://" ++ e ++ "\n" ++
      "  name: " ++ ("demo_" ++ n) ++ "\n" ++
      "contexts:\n" ++
      "- context:\n" ++
      "    cluster: " ++ ("demo_" ++ n) ++ "\n" ++
      "    user: " ++ ("demo_" ++ n) ++ "\n" ++
      "  name: " ++ ("demo_" ++ n) ++ "\n" ++
      "current-context: " ++ ("demo_" ++ n) ++ "\n" ++
      "kind: Config\n" ++
      "preferences: \x7b\x7d\n" ++
      "users:\n" ++
      "- name: " ++ ("demo_" ++ n) ++ "\n" ++
      "  user:\n" ++
      "    auth-provider:\n" ++
      "      config:\n" ++
      "        cmd-args: config config-helper --format=json\n" ++
      "        cmd-path: gcloud\n" ++
      "        expiry-key: \x27\x7b.credential.token_expiry\x7d\x27\n" ++
      "        token-key: \x27\x7b.credential.access_token\x7d\x27\n" ++
      "      name: gcp" := by
  rw [generateKubeconfig_raw, sprintf_context]
  apply String.ext
  simp only [String.data_append, List.append_assoc]
  rfl

set_option maxRecDepth 100000 in
/-- The formatted template lines, as the formatter produces them. -/
theorem kubeconfigLines_raw (e n c : String) : kubeconfigLines e n c =
  [ "apiVersion: v1".data, "clusters:".data, "- cluster:".data,
    "    certificate-authority-data: ".data ++ (c.data ++ []),
    "    server: https://".data ++ (e.data ++ []),
    "  name: ".data ++ ((sprintf "demo_%s" [n]).data ++ []),
    "contexts:".data, "- context:".data,
    "    cluster: ".data ++ ((sprintf "demo_%s" [n]).data ++ []),
    "    user: ".data ++ ((sprintf "demo_%s" [n]).data ++ []),
    "  name: ".data ++ ((sprintf "demo_%s" [n]).data ++ []),
    "current-context: ".data ++ ((sprintf "demo_%s" [n]).data ++ []),
    "kind: Config".data, "preferences: \x7b\x7d".data, "users:".data,
    "- name: ".data ++ ((sprintf "demo_%s" [n]).data ++ []),
    "  user:".data, "    auth-provider:".data, "      config:".data,
    "        cmd-args: config config-helper --format=json".data,
    "        cmd-path: gcloud".data,
    "        expiry-key: \x27\x7b.credential.token_expiry\x7d\x27".data,
    "        token-key: \x27\x7b.credential.access_token\x7d\x27".data,
    "      name: gcp".data ] := rfl

/-- The formatted template lines, written out. -/
theorem kubeconfigLines_eq (e n c : String) : kubeconfigLines e n c =
  [ "apiVersion: v1".data, "clusters:".data, "- cluster:".data,
    ("    certificate-authority-data: " ++ c).data,
    ("    server: https://" ++ e).data,
    ("  name: " ++ ("demo_" ++ n)).data,
    "contexts:".data, "- context:".data,
    ("    cluster: " ++ ("demo_" ++ n)).data,
    ("    user: " ++ ("demo_" ++ n)).data,
    ("  name: " ++ ("demo_" ++ n)).data,
    ("current-context: " ++ ("demo_" ++ n)).data,
    "kind: Config".data, "preferences: \x7b\x7d".data, "users:".data,
    ("- name: " ++ ("demo_" ++ n)).data,
    "  user:".data, "    auth-provider:".data, "      config:".data,
    "        cmd-args: config config-helper --format=json".data,
    "        cmd-path: gcloud".data,
    "        expiry-key: \x27\x7b.credential.token_expiry\x7d\x27".data,
    "        token-key: \x27\x7b.credential.access_token\x7d\x27".data,
    "      name: gcp".data ] := by
  rw [kubeconfigLines_raw, sprintf_context]
  simp only [String.data_append, List.append_nil]

set_option maxRecDepth 100000 in
/-- C2: for every endpoint, cluster name and CA certificate, `generateKubeconfig`
returns byte for byte the kubeconfig template, with `caCert` in
`certificate-authority-data`, `endpoint` behind `server: https://` and
`"demo_" ++ name` as cluster name, context name, `current-context` and user name
(and as the context's cluster and user); its sequence items are one cluster, one
context and one user; the user is the `gcp` auth-provider with `cmd-path: gcloud`,
`cmd-args: config config-helper --format=json` and the fixed expiry-key and
token-key.  For endpoint `34.1.2.3`, name `demo-cluster` and certificate
`QkFTRTY0Q0VSVA==` the lines of the document are the 24 lines listed. -/
theorem generateKubeconfig_template (endpoint name caCert : String) :
    generateKubeconfig endpoint name caCert =
      "apiVersion: v1\n" ++
      "clusters:\n" ++
      "- cluster:\n" ++
      "    certificate-authority-data: " ++ caCert ++ "\n" ++
      "    server: https://" ++ endpoint ++ "\n" ++
      "  name: " ++ ("demo_" ++ name) ++ "\n" ++
      "contexts:\n" ++
      "- context:\n" ++
      "    cluster: " ++ ("demo_" ++ name) ++ "\n" ++
      "    user: " ++ ("demo_" ++ name) ++ "\n" ++
      "  name: " ++ ("demo_" ++ name) ++ "\n" ++
      "current-context: " ++ ("demo_" ++ name) ++ "\n" ++
      "kind: Config\n" ++
      "preferences: \x7b\x7d\n" ++
      "users:\n" ++
      "- name: " ++ ("demo_" ++ name) ++ "\n" ++
      "  user:\n" ++
      "    auth-provider:\n" ++
      "      config:\n" ++
      "        cmd-args: config config-helper --format=json\n" ++
      "        cmd-path: gcloud\n" ++
      "        expiry-key: \x27\x7b.credential.token_expiry\x7d\x27\n" ++
      "        token-key: \x27\x7b.credential.access_token\x7d\x27\n" ++
      "      name: gcp" ∧
    (kubeconfigLines endpoint name caCert).filter opensItem =
      ["- cluster:".data, "- context:".data, ("- name: " ++ ("demo_" ++ name)).data] ∧
    documentLines (generateKubeconfig "34.1.2.3" "demo-cluster" "QkFTRTY0Q0VSVA==") =
      [ "apiVersion: v1",
        "clusters:",
        "- cluster:",
        "    certificate-authority-data: QkFTRTY0Q0VSVA==",
        "    server: https://34.1.2.3",
        "  name: demo_demo-cluster",
        "contexts:",
        "- context:",
        "    cluster: demo_demo-cluster",
        "    user: demo_demo-cluster",
        "  name: demo_demo-cluster",
        "current-context: demo_demo-cluster",
        "kind: Config",
        "preferences: \x7b\x7d",
        "users:",
        "- name: demo_demo-cluster",
        "  user:",
        "    auth-provider:",
        "      config:",
        "        cmd-args: config config-helper --format=json",
        "        cmd-path: gcloud",
        "        expiry-key: \x27\x7b.credential.token_expiry\x7d\x27",
        "        token-key: \x27\x7b.credential.access_token\x7d\x27",
        "      name: gcp" ] := by
  refine ⟨generateKubeconfig_eq endpoint name caCert, ?_, rfl⟩
  rw [kubeconfigLines_eq]
  rfl

/-- When the version query fails, `findLatestGKEversion` reads through the nil pointer
and does not return. -/
theorem findLatestGKEversion_failure (ctx : Context) (e : GoError)
    (h : ctx.cloud.getEngineVersions = SdkResult.failure e) :
    (findLatestGKEversion ctx).2 = Outcome.panic := by
  simp [findLatestGKEversion, h, SdkResult.pointer]

/-- When the version query succeeds, `findLatestGKEversion` returns the latest master
version and a nil error. -/
theorem findLatestGKEversion_success (ctx : Context) (ev : GetEngineVersionsResult)
    (h : ctx.cloud.getEngineVersions = SdkResult.success ev) :
    (findLatestGKEversion ctx).2 = Outcome.ret (ev.latestMasterVersion, none) := by
  simp [findLatestGKEversion, h, SdkResult.pointer, SdkResult.err]

/-- Every run of the workflow, by the answers of the cloud: the version query fails
and the run panics, or one of the five later calls is the first to fail and the run
returns its error, or all six calls succeed. -/
theorem run_cases (cloud : Cloud) :
    (∃ e, cloud.getEngineVersions = SdkResult.failure e ∧
      run cloud =
        ({ cloud := cloud, calls := [(Call.getEngineVersions, some e)], synthesized := [],
           stdout := "", exports := [] }, Outcome.panic)) ∨
    (∃ ev e, cloud.getEngineVersions = SdkResult.success ev ∧
      cloud.newCluster "demo-cluster" (clusterArgs ev.latestMasterVersion) = SdkResult.failure e ∧
      run cloud =
        ({ cloud := cloud,
           calls := [(Call.getEngineVersions, none),
             (Call.newCluster "demo-cluster" (clusterArgs ev.latestMasterVersion), some e)],
           synthesized := [], stdout := "", exports := [] }, Outcome.ret (some e))) ∨
    (∃ ev c e, cloud.getEngineVersions = SdkResult.success ev ∧
      cloud.newCluster "demo-cluster" (clusterArgs ev.latestMasterVersion) = SdkResult.success c ∧
      cloud.newProvider "demo-provider" (providerArgs c) [c] = SdkResult.failure e ∧
      run cloud =
        ({ cloud := cloud,
           calls := [(Call.getEngineVersions, none),
             (Call.newCluster "demo-cluster" (clusterArgs ev.latestMasterVersion), none),
             (Call.newProvider "demo-provider" (providerArgs c) [c], some e)],
           synthesized := [(c.endpoint, c.name, c.masterAuth.clusterCaCertificate)],
           stdout := "", exports := [] }, Outcome.ret (some e))) ∨
    (∃ ev c p e, cloud.getEngineVersions = SdkResult.success ev ∧
      cloud.newCluster "demo-cluster" (clusterArgs ev.latestMasterVersion) = SdkResult.success c ∧
      cloud.newProvider "demo-provider" (providerArgs c) [c] = SdkResult.success p ∧
      cloud.newNamespace "app-ns" namespaceArgs (some p) = SdkResult.failure e ∧
      run cloud =
        ({ cloud := cloud,
           calls := [(Call.getEngineVersions, none),
             (Call.newCluster "demo-cluster" (clusterArgs ev.latestMasterVersion), none),
             (Call.newProvider "demo-provider" (providerArgs c) [c], none),
             (Call.newNamespace "app-ns" namespaceArgs (some p), some e)],
           synthesized := [(c.endpoint, c.name, c.masterAuth.clusterCaCertificate)],
           stdout := "", exports := [] }, Outcome.ret (some e))) ∨
    (∃ ev c p ns e, cloud.getEngineVersions = SdkResult.success ev ∧
      cloud.newCluster "demo-cluster" (clusterArgs ev.latestMasterVersion) = SdkResult.success c ∧
      cloud.newProvider "demo-provider" (providerArgs c) [c] = SdkResult.success p ∧
      cloud.newNamespace "app-ns" namespaceArgs (some p) = SdkResult.success ns ∧
      cloud.newDeployment "pickard-demo" (deploymentArgs "pickard-demo" ns appLabels) (some p) =
        SdkResult.failure e ∧
      run cloud =
        ({ cloud := cloud,
           calls := [(Call.getEngineVersions, none),
             (Call.newCluster "demo-cluster" (clusterArgs ev.latestMasterVersion), none),
             (Call.newProvider "demo-provider" (providerArgs c) [c], none),
             (Call.newNamespace "app-ns" namespaceArgs (some p), none),
             (Call.newDeployment "pickard-demo" (deploymentArgs "pickard-demo" ns appLabels)
               (some p), some e)],
           synthesized := [(c.endpoint, c.name, c.masterAuth.clusterCaCertificate)],
           stdout := "", exports := [] }, Outcome.ret (some e))) ∨
    (∃ ev c p ns d e, cloud.getEngineVersions = SdkResult.success ev ∧
      cloud.newCluster "demo-cluster" (clusterArgs ev.latestMasterVersion) = SdkResult.success c ∧
      cloud.newProvider "demo-provider" (providerArgs c) [c] = SdkResult.success p ∧
      cloud.newNamespace "app-ns" namespaceArgs (some p) = SdkResult.success ns ∧
      cloud.newDeployment "pickard-demo" (deploymentArgs "pickard-demo" ns appLabels) (some p) =
        SdkResult.success d ∧
      cloud.newService "pickard-service" (serviceArgs ns appLabels) (some p) =
        SdkResult.failure e ∧
      run cloud =
        ({ cloud := cloud,
           calls := [(Call.getEngineVersions, none),
             (Call.newCluster "demo-cluster" (clusterArgs ev.latestMasterVersion), none),
             (Call.newProvider "demo-provider" (providerArgs c) [c], none),
             (Call.newNamespace "app-ns" namespaceArgs (some p), none),
             (Call.newDeployment "pickard-demo" (deploymentArgs "pickard-demo" ns appLabels)
               (some p), none),
             (Call.newService "pickard-service" (serviceArgs ns appLabels) (some p), some e)],
           synthesized := [(c.endpoint, c.name, c.masterAuth.clusterCaCertificate)],
           stdout := "", exports := [] }, Outcome.ret (some e))) ∨
    (∃ ev c p ns d s, cloud.getEngineVersions = SdkResult.success ev ∧
      cloud.newCluster "demo-cluster" (clusterArgs ev.latestMasterVersion) = SdkResult.success c ∧
      cloud.newProvider "demo-provider" (providerArgs c) [c] = SdkResult.success p ∧
      cloud.newNamespace "app-ns" namespaceArgs (some p) = SdkResult.success ns ∧
      cloud.newDeployment "pickard-demo" (deploymentArgs "pickard-demo" ns appLabels) (some p) =
        SdkResult.success d ∧
      cloud.newService "pickard-service" (serviceArgs ns appLabels) (some p) =
        SdkResult.success s ∧
      run cloud =
        ({ cloud := cloud,
           calls := [(Call.getEngineVersions, none),
             (Call.newCluster "demo-cluster" (clusterArgs ev.latestMasterVersion), none),
             (Call.newProvider "demo-provider" (providerArgs c) [c], none),
             (Call.newNamespace "app-ns" namespaceArgs (some p), none),
             (Call.newDeployment "pickard-demo" (deploymentArgs "pickard-demo" ns appLabels)
               (some p), none),
             (Call.newService "pickard-service" (serviceArgs ns appLabels) (some p), none)],
           synthesized := [(c.endpoint, c.name, c.masterAuth.clusterCaCertificate),
             (c.endpoint, c.name, c.masterAuth.clusterCaCertificate)],
           stdout := "deployment URN => " ++ d.urn ++ ("service URN => " ++ s.urn),
           exports := [("kubeconfig",
             generateKubeconfig c.endpoint c.name c.masterAuth.clusterCaCertificate)] },
         Outcome.ret none)) := by
  cases h1 : cloud.getEngineVersions with
  | failure e =>
    exact Or.inl ⟨e, rfl, by simp [run, main, report, findLatestGKEversion, createCluster, createProvider, createNamespace, createDeploy, createService, h1, SdkResult.pointer, SdkResult.err, Context.call, Context.start, Context.synthesize, Context.printf, Context.exportValue, sprintf_deployment, sprintf_service, String.append_assoc]⟩
  | success ev =>
    refine Or.inr ?_
    cases h2 : cloud.newCluster "demo-cluster" (clusterArgs ev.latestMasterVersion) with
    | failure e =>
      exact Or.inl ⟨ev, e, rfl, h2, by simp [run, main, report, findLatestGKEversion, createCluster, createProvider, createNamespace, createDeploy, createService, h1, h2, SdkResult.pointer, SdkResult.err, Context.call, Context.start, Context.synthesize, Context.printf, Context.exportValue, sprintf_deployment, sprintf_service, String.append_assoc]⟩
    | success c =>
      refine Or.inr ?_
      cases h3 : cloud.newProvider "demo-provider" (providerArgs c) [c] with
      | failure e =>
        exact Or.inl ⟨ev, c, e, rfl, h2, h3, by simp [run, main, report, findLatestGKEversion, createCluster, createProvider, createNamespace, createDeploy, createService, h1, h2, h3, SdkResult.pointer, SdkResult.err, Context.call, Context.start, Context.synthesize, Context.printf, Context.exportValue, sprintf_deployment, sprintf_service, String.append_assoc]⟩
      | success p =>
        refine Or.inr ?_
        cases h4 : cloud.newNamespace "app-ns" namespaceArgs (some p) with
        | failure e =>
          exact Or.inl ⟨ev, c, p, e, rfl, h2, h3, h4, by simp [run, main, report, findLatestGKEversion, createCluster, createProvider, createNamespace, createDeploy, createService, h1, h2, h3, h4, SdkResult.pointer, SdkResult.err, Context.call, Context.start, Context.synthesize, Context.printf, Context.exportValue, sprintf_deployment, sprintf_service, String.append_assoc]⟩
        | success ns =>
          refine Or.inr ?_
          cases h5 : cloud.newDeployment "pickard-demo"
              (deploymentArgs "pickard-demo" ns appLabels) (some p) with
          | failure e =>
            exact Or.inl ⟨ev, c, p, ns, e, rfl, h2, h3, h4, h5, by simp [run, main, report, findLatestGKEversion, createCluster, createProvider, createNamespace, createDeploy, createService, h1, h2, h3, h4, h5, SdkResult.pointer, SdkResult.err, Context.call, Context.start, Context.synthesize, Context.printf, Context.exportValue, sprintf_deployment, sprintf_service, String.append_assoc]⟩
          | success d =>
            refine Or.inr ?_
            cases h6 : cloud.newService "pickard-service" (serviceArgs ns appLabels)
                (some p) with
            | failure e =>
              exact Or.inl ⟨ev, c, p, ns, d, e, rfl, h2, h3, h4, h5, h6, by simp [run, main, report, findLatestGKEversion, createCluster, createProvider, createNamespace, createDeploy, createService, h1, h2, h3, h4, h5, h6, SdkResult.pointer, SdkResult.err, Context.call, Context.start, Context.synthesize, Context.printf, Context.exportValue, sprintf_deployment, sprintf_service, String.append_assoc]⟩
            | success s =>
              exact Or.inr ⟨ev, c, p, ns, d, s, rfl, h2, h3, h4, h5, h6, by simp [run, main, report, findLatestGKEversion, createCluster, createProvider, createNamespace, createDeploy, createService, h1, h2, h3, h4, h5, h6, SdkResult.pointer, SdkResult.err, Context.call, Context.start, Context.synthesize, Context.printf, Context.exportValue, sprintf_deployment, sprintf_service, String.append_assoc]⟩

/-! ## The workflow: the claims -/

/-- C4, at a cloud whose version query fails with error `catalog unreachable`:
`findLatestGKEversion` does not return the error, it panics on the nil result, and so
does the workflow; the version query is the only call issued, no cluster is requested. -/
theorem findLatestGKEversion_catalog_down :
    (findLatestGKEversion (Context.start catalogDownCloud)).2 = Outcome.panic ∧
    (run catalogDownCloud).2 = Outcome.panic ∧
    (run catalogDownCloud).2 ≠ Outcome.ret (some { message := "catalog unreachable" }) ∧
    (run catalogDownCloud).1.calls =
      [(Call.getEngineVersions, some { message := "catalog unreachable" })] := by
  refine ⟨rfl, rfl, ?_, rfl⟩
  intro h
  have h2 : (run catalogDownCloud).2 = Outcome.panic := rfl
  rw [h2] at h
  cases h

/-- C5: when a call of one of the steps `createCluster`, `createProvider`,
`createNamespace`, `createDeploy`, `createService` answers an error `e`, the workflow
returns exactly `e`; that call is the last one issued, every call before it answered
without error, the calls issued are the steps of the workflow up to it, in order;
nothing is printed and nothing is exported; when the failing step is `createCluster`,
`generateKubeconfig` is not invoked. -/
theorem main_fail_fast (cloud : Cloud) (call : Call) (e : GoError)
    (hstep : call.kind ≠ CallKind.versionQuery)
    (herr : (call, some e) ∈ (run cloud).1.calls) :
    (run cloud).2 = Outcome.ret (some e) ∧
    (run cloud).1.calls.getLast? = some (call, some e) ∧
    (∀ c ∈ (run cloud).1.calls.dropLast, c.2 = none) ∧
    (run cloud).1.calls.map (fun c => c.1.kind) =
      workflowSteps.take (run cloud).1.calls.length ∧
    (run cloud).1.stdout = "" ∧
    (run cloud).1.exports = [] ∧
    (call.kind = CallKind.clusterCreate → (run cloud).1.synthesized = []) := by
  rcases run_cases cloud with ⟨e1, -, h⟩ | ⟨ev, e1, -, -, h⟩ | ⟨ev, c, e1, -, -, -, h⟩ |
    ⟨ev, c, p, e1, -, -, -, -, h⟩ | ⟨ev, c, p, ns, e1, -, -, -, -, -, h⟩ |
    ⟨ev, c, p, ns, d, e1, -, -, -, -, -, -, h⟩ | ⟨ev, c, p, ns, d, s, -, -, -, -, -, -, h⟩ <;>
    rw [h] at herr ⊢ <;>
    simp at herr <;>
    (try obtain ⟨rfl, rfl⟩ := herr) <;>
    simp_all [Call.kind, workflowSteps]

set_option maxRecDepth 100000 in
/-- Witness of `main_fail_fast`: for each of the five steps, a cloud in which that step
is the one that fails. -/
theorem main_fail_fast_witness :
    ((Call.newCluster "demo-cluster" (clusterArgs "1.14.10-gke.27")).kind ≠
        CallKind.versionQuery ∧
      (Call.newCluster "demo-cluster" (clusterArgs "1.14.10-gke.27"),
        some { message := "quota exceeded" }) ∈ (run clusterDownCloud).1.calls ∧
      (run clusterDownCloud).2 = Outcome.ret (some { message := "quota exceeded" }) ∧
      (run clusterDownCloud).1.synthesized = []) ∧
    ((run providerDownCloud).1.calls.length = 3 ∧
      (run providerDownCloud).2 = Outcome.ret (some { message := "bad kubeconfig" })) ∧
    ((run namespaceDownCloud).1.calls.length = 4 ∧
      (run namespaceDownCloud).2 = Outcome.ret (some { message := "forbidden" })) ∧
    ((run deploymentDownCloud).1.calls.length = 5 ∧
      (run deploymentDownCloud).2 = Outcome.ret (some { message := "invalid spec" })) ∧
    ((run serviceDownCloud).1.calls.length = 6 ∧
      (run serviceDownCloud).2 = Outcome.ret (some { message := "no address" }) ∧
      (run serviceDownCloud).1.stdout = "" ∧
      (run serviceDownCloud).1.exports = []) :=
  ⟨⟨by decide, by decide,
      (main_fail_fast clusterDownCloud
        (Call.newCluster "demo-cluster" (clusterArgs "1.14.10-gke.27"))
        { message := "quota exceeded" } (by decide) (by decide)).1,
      (main_fail_fast clusterDownCloud
        (Call.newCluster "demo-cluster" (clusterArgs "1.14.10-gke.27"))
        { message := "quota exceeded" } (by decide) (by decide)).2.2.2.2.2.2 rfl⟩,
    ⟨rfl, (main_fail_fast providerDownCloud
        (Call.newProvider "demo-provider"
          (providerArgs demoCluster) [demoCluster])
        { message := "bad kubeconfig" } (by decide)
        (by decide)).1⟩,
    ⟨rfl, (main_fail_fast namespaceDownCloud
        (Call.newNamespace "app-ns" namespaceArgs (some { urn := "urn:provider" }))
        { message := "forbidden" } (by decide) (by decide)).1⟩,
    ⟨rfl, (main_fail_fast deploymentDownCloud
        (Call.newDeployment "pickard-demo"
          (deploymentArgs "pickard-demo" { metadataName := "demo-ns" } appLabels)
          (some { urn := "urn:provider" }))
        { message := "invalid spec" } (by decide) (by decide)).1⟩,
    ⟨rfl, (main_fail_fast serviceDownCloud
        (Call.newService "pickard-service"
          (serviceArgs { metadataName := "demo-ns" } appLabels)
          (some { urn := "urn:provider" }))
        { message := "no address" } (by decide) (by decide)).1,
      (main_fail_fast serviceDownCloud
        (Call.newService "pickard-service"
          (serviceArgs { metadataName := "demo-ns" } appLabels)
          (some { urn := "urn:provider" }))
        { message := "no address" } (by decide) (by decide)).2.2.2.2.1,
      (main_fail_fast serviceDownCloud
        (Call.newService "pickard-service"
          (serviceArgs { metadataName := "demo-ns" } appLabels)
          (some { urn := "urn:provider" }))
        { message := "no address" } (by decide) (by decide)).2.2.2.2.2.1⟩⟩

/-- C6: whatever version string `v` the version resolver returns (the empty string
included), the cluster request of the workflow, its second call, has
`MinMasterVersion = v` and `NodeVersion = v`, and so has every cluster request in the
run. -/
theorem version_pinning (cloud : Cloud) (v : String)
    (hv : (findLatestGKEversion (Context.start cloud)).2 = Outcome.ret (v, none)) :
    (∃ args err, (run cloud).1.calls[1]? = some (Call.newCluster "demo-cluster" args, err) ∧
      args.minMasterVersion = v ∧ args.nodeVersion = v) ∧
    (∀ name args err, (Call.newCluster name args, err) ∈ (run cloud).1.calls →
      args.minMasterVersion = v ∧ args.nodeVersion = v) := by
  cases h1 : cloud.getEngineVersions with
  | failure e =>
    rw [findLatestGKEversion_failure (Context.start cloud) e h1] at hv
    cases hv
  | success ev0 =>
    rw [findLatestGKEversion_success (Context.start cloud) ev0 h1] at hv
    have hv2 : ev0.latestMasterVersion = v := by
      injection hv with hv
      exact (Prod.mk.inj hv).1
    have key : ∀ ev, cloud.getEngineVersions = SdkResult.success ev →
        ev.latestMasterVersion = v := by
      intro ev g
      rw [h1] at g
      injection g with g
      rw [← g]
      exact hv2
    rcases run_cases cloud with ⟨e1, g, h⟩ | ⟨ev, e1, g, -, h⟩ | ⟨ev, c, e1, g, -, -, h⟩ |
      ⟨ev, c, p, e1, g, -, -, -, h⟩ | ⟨ev, c, p, ns, e1, g, -, -, -, -, h⟩ |
      ⟨ev, c, p, ns, d, e1, g, -, -, -, -, -, h⟩ |
      ⟨ev, c, p, ns, d, s, g, -, -, -, -, -, h⟩
    · rw [h1] at g
      cases g
    all_goals
      have hk := key ev g
      rw [h]
      refine ⟨⟨clusterArgs ev.latestMasterVersion, _, rfl, hk, hk⟩, ?_⟩
      intro name args err hmem
      simp at hmem
      obtain ⟨⟨-, rfl⟩, -⟩ := hmem
      exact ⟨hk, hk⟩

set_option maxRecDepth 100000 in
/-- Witness of `version_pinning`: the cloud of the end-to-end example, whose resolver
returns `1.14.10-gke.27`, and a cloud whose resolver returns the empty string. -/
theorem version_pinning_witness :
    ((findLatestGKEversion (Context.start demoCloud)).2 =
        Outcome.ret ("1.14.10-gke.27", none) ∧
      ∃ args err, (run demoCloud).1.calls[1]? =
          some (Call.newCluster "demo-cluster" args, err) ∧
        args.minMasterVersion = "1.14.10-gke.27" ∧ args.nodeVersion = "1.14.10-gke.27") ∧
    ((findLatestGKEversion (Context.start blankVersionCloud)).2 = Outcome.ret ("", none) ∧
      ∃ args err, (run blankVersionCloud).1.calls[1]? =
          some (Call.newCluster "demo-cluster" args, err) ∧
        args.minMasterVersion = "" ∧ args.nodeVersion = "") :=
  ⟨⟨rfl, (version_pinning demoCloud "1.14.10-gke.27" rfl).1⟩,
    ⟨rfl, (version_pinning blankVersionCloud "" rfl).1⟩⟩

/-- C7: in every run, each deployment request has selector `matchLabels` and
pod-template labels equal to the map `app: pickard-app`, and each service request has
that same map as selector; for every label map `l`, `createDeploy` and `createService`
called with `l` issue a request that uses `l` unchanged as selector (and, in the
deployment, as pod-template labels). -/
theorem label_equality (cloud : Cloud) (ctx : Context) (name : String) (p : Option Provider)
    (n : Namespace) (l : StringMap) :
    (∀ nm args pr err, (Call.newDeployment nm args pr, err) ∈ (run cloud).1.calls →
      args.spec.selector.matchLabels = [("app", "pickard-app")] ∧
      args.spec.template.metadata.labels = some [("app", "pickard-app")]) ∧
    (∀ nm args pr err, (Call.newService nm args pr, err) ∈ (run cloud).1.calls →
      args.spec.selector = [("app", "pickard-app")]) ∧
    (∃ args err,
      (createDeploy ctx name p (some n) l).1.calls =
        ctx.calls ++ [(Call.newDeployment name args p, err)] ∧
      args.spec.selector.matchLabels = l ∧ args.spec.template.metadata.labels = some l) ∧
    (∃ args err,
      (createService ctx name p (some n) l).1.calls =
        ctx.calls ++ [(Call.newService name args p, err)] ∧
      args.spec.selector = l) := by
  refine ⟨?_, ?_, ⟨deploymentArgs name n l, _, rfl, rfl, rfl⟩, ⟨serviceArgs n l, _, rfl, rfl⟩⟩
  · intro nm args pr err hmem
    rcases run_cases cloud with ⟨e1, -, h⟩ | ⟨ev, e1, -, -, h⟩ | ⟨ev, c, e1, -, -, -, h⟩ |
      ⟨ev, c, p, e1, -, -, -, -, h⟩ | ⟨ev, c, p, ns, e1, -, -, -, -, -, h⟩ |
      ⟨ev, c, p, ns, d, e1, -, -, -, -, -, -, h⟩ |
      ⟨ev, c, p, ns, d, s, -, -, -, -, -, -, h⟩ <;>
      rw [h] at hmem <;>
      simp at hmem <;>
      (obtain ⟨⟨-, rfl, -⟩, -⟩ := hmem) <;>
      simp [deploymentArgs, appLabels]
  · intro nm args pr err hmem
    rcases run_cases cloud with ⟨e1, -, h⟩ | ⟨ev, e1, -, -, h⟩ | ⟨ev, c, e1, -, -, -, h⟩ |
      ⟨ev, c, p, e1, -, -, -, -, h⟩ | ⟨ev, c, p, ns, e1, -, -, -, -, -, h⟩ |
      ⟨ev, c, p, ns, d, e1, -, -, -, -, -, -, h⟩ |
      ⟨ev, c, p, ns, d, s, -, -, -, -, -, -, h⟩ <;>
      rw [h] at hmem <;>
      simp at hmem <;>
      (obtain ⟨⟨-, rfl, -⟩, -⟩ := hmem) <;>
      simp [serviceArgs, appLabels]

set_option maxRecDepth 100000 in
/-- Witness of `label_equality`: the run of the end-to-end example issues a deployment
request and a service request, and their selectors agree. -/
theorem label_equality_witness :
    (Call.newDeployment "pickard-demo"
        (deploymentArgs "pickard-demo" { metadataName := "demo-ns" } appLabels)
        (some { urn := "urn:provider" }), none) ∈ (run demoCloud).1.calls ∧
    (Call.newService "pickard-service"
        (serviceArgs { metadataName := "demo-ns" } appLabels)
        (some { urn := "urn:provider" }), none) ∈ (run demoCloud).1.calls ∧
    (deploymentArgs "pickard-demo" { metadataName := "demo-ns" }
        appLabels).spec.selector.matchLabels =
      (serviceArgs { metadataName := "demo-ns" } appLabels).spec.selector ∧
    (deploymentArgs "pickard-demo" { metadataName := "demo-ns" }
        appLabels).spec.template.metadata.labels =
      some (serviceArgs { metadataName := "demo-ns" } appLabels).spec.selector :=
  ⟨by decide, by decide,
    (((label_equality demoCloud (Context.start demoCloud) "pickard-demo" none
        { metadataName := "demo-ns" } appLabels).1
        "pickard-demo" (deploymentArgs "pickard-demo" { metadataName := "demo-ns" } appLabels)
        (some { urn := "urn:provider" }) none (by decide)).1).trans
      ((label_equality demoCloud (Context.start demoCloud) "pickard-demo" none
        { metadataName := "demo-ns" } appLabels).2.1
        "pickard-service" (serviceArgs { metadataName := "demo-ns" } appLabels)
        (some { urn := "urn:provider" }) none (by decide)).symm,
    (((label_equality demoCloud (Context.start demoCloud) "pickard-demo" none
        { metadataName := "demo-ns" } appLabels).1
        "pickard-demo" (deploymentArgs "pickard-demo" { metadataName := "demo-ns" } appLabels)
        (some { urn := "urn:provider" }) none (by decide)).2).trans
      (congrArg some ((label_equality demoCloud (Context.start demoCloud) "pickard-demo" none
        { metadataName := "demo-ns" } appLabels).2.1
        "pickard-service" (serviceArgs { metadataName := "demo-ns" } appLabels)
        (some { urn := "urn:provider" }) none (by decide)).symm)⟩

/-- C8: in every run, a namespace, deployment or service create call is preceded in
the trace by a cluster create call that answered without error; on a run that returns
without error the trace is exactly version query, cluster create, provider create,
namespace create, deployment create, service create, in that order, each answered
without error. -/
theorem workflow_ordering (cloud : Cloud) :
    (∀ (i : Nat) (call : Call) (err : Option GoError),
      (run cloud).1.calls[i]? = some (call, err) →
      call.kind ∈ [CallKind.namespaceCreate, CallKind.deploymentCreate,
        CallKind.serviceCreate] →
      ∃ j name args, j < i ∧
        (run cloud).1.calls[j]? = some (Call.newCluster name args, none)) ∧
    ((run cloud).2 = Outcome.ret none →
      (run cloud).1.calls.map (fun c => (c.1.kind, c.2)) =
        [ (CallKind.versionQuery, none), (CallKind.clusterCreate, none),
          (CallKind.providerCreate, none), (CallKind.namespaceCreate, none),
          (CallKind.deploymentCreate, none), (CallKind.serviceCreate, none) ]) := by
  rcases run_cases cloud with ⟨e1, -, h⟩ | ⟨ev, e1, -, -, h⟩ | ⟨ev, c, e1, -, -, -, h⟩ |
    ⟨ev, c, p, e1, -, -, -, -, h⟩ | ⟨ev, c, p, ns, e1, -, -, -, -, -, h⟩ |
    ⟨ev, c, p, ns, d, e1, -, -, -, -, -, -, h⟩ |
    ⟨ev, c, p, ns, d, s, -, -, -, -, -, -, h⟩ <;>
    rw [h] <;>
    refine ⟨?_, by simp [Call.kind]⟩ <;>
    intro i call err hi hk <;>
    rcases i with _ | _ | _ | _ | _ | _ | i <;>
    simp at hi <;>
    (try obtain ⟨rfl, rfl⟩ := hi) <;>
    simp [Call.kind] at hk <;>
    exact ⟨1, _, _, by omega, rfl⟩

set_option maxRecDepth 100000 in
/-- Witness of `workflow_ordering`: the run of the end-to-end example returns without
error, its namespace create call is the fourth call, and the trace is the six steps in
order. -/
theorem workflow_ordering_witness :
    (run demoCloud).2 = Outcome.ret none ∧
    (run demoCloud).1.calls[3]? =
      some (Call.newNamespace "app-ns" namespaceArgs (some { urn := "urn:provider" }), none) ∧
    (∃ j name args, j < 3 ∧
      (run demoCloud).1.calls[j]? = some (Call.newCluster name args, none)) ∧
    (run demoCloud).1.calls.map (fun c => (c.1.kind, c.2)) =
      [ (CallKind.versionQuery, none), (CallKind.clusterCreate, none),
        (CallKind.providerCreate, none), (CallKind.namespaceCreate, none),
        (CallKind.deploymentCreate, none), (CallKind.serviceCreate, none) ] :=
  ⟨rfl, rfl,
    (workflow_ordering demoCloud).1 3
      (Call.newNamespace "app-ns" namespaceArgs (some { urn := "urn:provider" })) none rfl
      (by decide),
    (workflow_ordering demoCloud).2 rfl⟩

/-- The output of every run that returns without error: the two messages, the second
directly behind the first. -/
theorem main_output (cloud : Cloud) (h : (run cloud).2 = Outcome.ret none) :
    ∃ d s : String, (run cloud).1.stdout = "deployment URN => " ++ d ++ ("service URN => " ++ s) := by
  rcases run_cases cloud with ⟨e1, -, h2⟩ | ⟨ev, e1, -, -, h2⟩ | ⟨ev, c, e1, -, -, -, h2⟩ |
    ⟨ev, c, p, e1, -, -, -, -, h2⟩ | ⟨ev, c, p, ns, e1, -, -, -, -, -, h2⟩ |
    ⟨ev, c, p, ns, d, e1, -, -, -, -, -, -, h2⟩ |
    ⟨ev, c, p, ns, d, s, -, -, -, -, -, -, h2⟩ <;>
    rw [h2] at h ⊢ <;>
    first
      | exact ⟨d.urn, s.urn, rfl⟩
      | simp at h

set_option maxRecDepth 100000 in
/-- C9, at the cloud of the end-to-end example, where the deployment prints as
`urn:deploy` and the service as `urn:service`: the run succeeds and prints
`deployment URN => urn:deployservice URN => urn:service`, a single line; no line break
separates the two messages. -/
theorem main_output_demo :
    (run demoCloud).2 = Outcome.ret none ∧
    (run demoCloud).1.stdout = "deployment URN => urn:deployservice URN => urn:service" ∧
    documentLines (run demoCloud).1.stdout =
      ["deployment URN => urn:deployservice URN => urn:service"] ∧
    documentLines (run demoCloud).1.stdout ≠
      ["deployment URN => urn:deploy", "service URN => urn:service"] := by
  refine ⟨rfl, rfl, rfl, ?_⟩
  have h : documentLines (run demoCloud).1.stdout =
      ["deployment URN => urn:deployservice URN => urn:service"] := rfl
  rw [h]
  decide

/-- C10: for every cluster name and version passed to `createCluster`, the request it
issues has initial node count 2, machine type `n1-standard-1` and exactly the four
OAuth scopes compute, devstorage.read_only, logging.write and monitoring; the version
fills `MinMasterVersion` and `NodeVersion`; the name passed does not influence the
call. -/
theorem createCluster_request (ctx : Context) (name name2 v : String) :
    ∃ args,
      (createCluster ctx name v).1.calls =
        ctx.calls ++ [(Call.newCluster "demo-cluster" args,
          (ctx.cloud.newCluster "demo-cluster" args).err)] ∧
      args.initialNodeCount = 2 ∧
      args.nodeConfig.machineType = "n1-standard-1" ∧
      args.nodeConfig.oauthScopes =
        [ "https://www.googleapis.com/auth/compute",
          "https://www.googleapis.com/auth/devstorage.read_only",
          "https://www.googleapis.com/auth/logging.write",
          "https://www.googleapis.com/auth/monitoring" ] ∧
      args.minMasterVersion = v ∧
      args.nodeVersion = v ∧
      createCluster ctx name2 v = createCluster ctx name v :=
  ⟨clusterArgs v, rfl, rfl, rfl, rfl, rfl, rfl, rfl⟩

end AutoGke
